import Mathlib

/-!
Shallow embedding of the calculation core of `src/script.js`
(a real-estate ROI / NPV calculator) and proofs of its specified
properties.

Modelling decisions:
* JavaScript numbers are modelled as rationals (`ℚ`); every value the
  calculators see is finite by the validation layer, and all operations
  used (`+`, `-`, `*`, `/`, `Math.pow` with a natural exponent,
  `Math.max`, `Math.floor`) are exact on ℚ.
* The JavaScript `Infinity` sentinel returned for the payback period is
  modelled as `⊤` in `WithTop ℚ` (the spec itself asks for a tagged
  value rather than a floating-point infinity).
* A form field is modelled as `Option ℚ`: `some v` when `parseFloat`
  yields a finite number `v`, `none` when the element is missing or the
  parse is not finite.
-/

namespace RealEstate

/-- The validated numeric fields read from the form
(the `vals` record built by `validateAndReadAll` in script.js). -/
structure InputSet where
  price : ℚ
  reno : ℚ
  mgmt : ℚ
  tax : ℚ
  rent : ℚ
  discount : ℚ
  years : ℚ
deriving DecidableEq

/-- The `DEFAULTS` constant of script.js. -/
def DEFAULTS : InputSet :=
  { price := 260000, reno := 17000, mgmt := 2639, tax := 3022,
    rent := 1700, discount := 2, years := 30 }

/-- Raw form state: for each field, `some v` models an element whose
`parseFloat` yields the finite number `v`; `none` models a missing
element or a non-finite parse (`NaN`, `Infinity`). -/
structure RawInputs where
  price : Option ℚ
  reno : Option ℚ
  mgmt : Option ℚ
  tax : Option ℚ
  rent : Option ℚ
  discount : Option ℚ
  years : Option ℚ

/-- `readInputValue(id, fallback)` (script.js:30-35): the parsed value
when finite, otherwise the fallback. -/
def readInputValue (entry : Option ℚ) (fallback : ℚ) : ℚ :=
  entry.getD fallback

/-- `validateAndReadAll` (script.js:38-56): read every field with its
default as fallback; only `years` is transformed
(`Math.max(1, Math.floor(...))`). -/
def validateAndReadAll (raw : RawInputs) : InputSet where
  price := readInputValue raw.price DEFAULTS.price
  reno := readInputValue raw.reno DEFAULTS.reno
  mgmt := readInputValue raw.mgmt DEFAULTS.mgmt
  tax := readInputValue raw.tax DEFAULTS.tax
  rent := readInputValue raw.rent DEFAULTS.rent
  discount := readInputValue raw.discount DEFAULTS.discount
  years := ((max 1 ⌊readInputValue raw.years DEFAULTS.years⌋ : ℤ) : ℚ)

/-- The per-field validation messages set by `setFieldMessage`
(script.js:48-54); `""` means no message. -/
structure FieldMessages where
  price : String
  reno : String
  mgmt : String
  tax : String
  rent : String
  discount : String
  years : String

/-- The message texts of `validateAndReadAll` (script.js:48-54). -/
def fieldMessages (vals : InputSet) : FieldMessages where
  price := if vals.price ≤ 0 then "Price must be positive" else ""
  reno := if vals.reno < 0 then "Renovation must be non-negative" else ""
  mgmt := if vals.mgmt < 0 then "Management fee must be non-negative" else ""
  tax := if vals.tax < 0 then "Property tax must be non-negative" else ""
  rent := if vals.rent < 0 then "Rent must be non-negative" else ""
  discount := if vals.discount < -99 ∨ vals.discount > 1000 then "Discount rate seems unusual" else ""
  years := if vals.years ≤ 0 then "Years must be at least 1" else ""

/-- A sample raw form state in which every field parses to a finite
value, several of them negative and the years fractional. -/
def sampleRaw : RawInputs :=
  { price := some (-5), reno := some (-1), mgmt := some (-2),
    tax := some (-3), rent := some (-4), discount := some (-160),
    years := some (5/2) }

/-- `calcROI`'s result record (script.js:94). `payback = ⊤` models the
JavaScript `Infinity` that `writeResultsToCards` renders as the
sentinel dash. -/
structure ROIResult where
  invest : ℚ
  annualRent : ℚ
  annualCosts : ℚ
  annualNet : ℚ
  roi : ℚ
  payback : WithTop ℚ

/-- `calcROI` (script.js:87-95). -/
def calcROI (values : InputSet) : ROIResult :=
  let invest := values.price + values.reno
  let annualRent := values.rent * 12
  let annualNet := annualRent - (values.mgmt + values.tax)
  let roi := if invest = 0 then 0 else annualNet / invest * 100
  let payback : WithTop ℚ :=
    if 0 < annualNet then ((invest / annualNet : ℚ) : WithTop ℚ) else ⊤
  { invest := invest, annualRent := annualRent,
    annualCosts := values.mgmt + values.tax, annualNet := annualNet,
    roi := roi, payback := payback }

/-- One row pushed into `rows` by `calcNPV` (script.js:109,115). -/
structure CashFlowRow where
  year : ℕ
  net : ℚ
  factor : ℚ
  pv : ℚ
  cumulative : ℚ
deriving DecidableEq

/-- `calcNPV`'s result record (script.js:118). -/
structure NPVResult where
  npv : ℚ
  rows : List CashFlowRow
  discountPct : ℚ
  years : ℕ

/-- `Math.max(1, Math.floor(values.years))` (script.js:99), as a
natural number (the result is always ≥ 1). -/
def clampYears (y : ℚ) : ℕ := (max 1 ⌊y⌋).toNat

/-- The effective discount rate
`r = Math.max(-0.99, discountPct / 100)` (script.js:100). -/
def effRate (discountPct : ℚ) : ℚ := max (-(99/100)) (discountPct / 100)

/-- The body of the `for (let t = 1; t <= years; t++)` loop of
`calcNPV` (script.js:111-116), acting on the accumulator
`(rows, cumulative)`. -/
def npvStep (netAnnual r : ℚ) (t : ℕ) (acc : List CashFlowRow × ℚ) :
    List CashFlowRow × ℚ :=
  let factor := 1 / (1 + r) ^ t
  let pvVal := netAnnual * factor
  let cumulative := acc.2 + pvVal
  (acc.1 ++ [{ year := t, net := netAnnual, factor := factor,
               pv := pvVal, cumulative := cumulative }], cumulative)

/-- `calcNPV` (script.js:97-119): row 0 is pushed first with
`cumulative = 0 + (-invest)`, then the loop runs `t = 1 .. years`. -/
def calcNPV (values : InputSet) : NPVResult :=
  let years := clampYears values.years
  let r := effRate values.discount
  let invest := values.price + values.reno
  let inflowAnnual := values.rent * 12
  let outflowAnnual := values.mgmt + values.tax
  let netAnnual := inflowAnnual - outflowAnnual
  let y0 : CashFlowRow :=
    { year := 0, net := -invest, factor := 1, pv := -invest,
      cumulative := -invest }
  let res := (List.range years).foldl
    (fun acc i => npvStep netAnnual r (i + 1) acc) ([y0], -invest)
  { npv := res.2, rows := res.1, discountPct := values.discount,
    years := years }

/-- Closed form of the row the NPV loop produces for year `t`;
`cumulative` is defined by the same recurrence the loop uses. -/
def expectedRow (netAnnual r invest : ℚ) : ℕ → CashFlowRow
  | 0 => { year := 0, net := -invest, factor := 1, pv := -invest,
           cumulative := -invest }
  | (t + 1) =>
      { year := t + 1, net := netAnnual, factor := 1 / (1 + r) ^ (t + 1),
        pv := netAnnual * (1 / (1 + r) ^ (t + 1)),
        cumulative := (expectedRow netAnnual r invest t).cumulative +
          netAnnual * (1 / (1 + r) ^ (t + 1)) }

lemma npvFold_eq (netAnnual r invest : ℚ) (n : ℕ) :
    (List.range n).foldl (fun acc i => npvStep netAnnual r (i + 1) acc)
      ([{ year := 0, net := -invest, factor := 1, pv := -invest,
          cumulative := -invest }], -invest)
    = ((List.range (n + 1)).map (expectedRow netAnnual r invest),
       (expectedRow netAnnual r invest n).cumulative) := by
  induction n with
  | zero => simp [expectedRow, List.range_succ]
  | succ n ih =>
      rw [List.range_succ, List.foldl_append, ih]
      rw [show n + 1 + 1 = (n + 1) + 1 from rfl, List.range_succ (n + 1)]
      simp [npvStep, expectedRow]

lemma calcNPV_eq (v : InputSet) :
    calcNPV v =
      { npv := (expectedRow (v.rent * 12 - (v.mgmt + v.tax))
          (effRate v.discount) (v.price + v.reno)
          (clampYears v.years)).cumulative,
        rows := (List.range (clampYears v.years + 1)).map
          (expectedRow (v.rent * 12 - (v.mgmt + v.tax))
            (effRate v.discount) (v.price + v.reno)),
        discountPct := v.discount, years := clampYears v.years } := by
  unfold calcNPV
  simp only [npvFold_eq]

/-- C1: for every `InputSet`, `calcROI` returns
`totalInvestment = price + renovationCost` and
`annualNetIncome = monthlyRent × 12 − (managementFee + propertyTax)`. -/
theorem calcROI_totals (v : InputSet) :
    (calcROI v).invest = v.price + v.reno ∧
    (calcROI v).annualNet = v.rent * 12 - (v.mgmt + v.tax) :=
  ⟨rfl, rfl⟩

/-- C2: `calcROI` returns `roiPercent = 0` when `totalInvestment = 0`,
and `annualNetIncome / totalInvestment × 100` otherwise; the division
only appears in the nonzero branch. -/
theorem calcROI_roi_guard (v : InputSet) :
    ((calcROI v).invest = 0 → (calcROI v).roi = 0) ∧
    ((calcROI v).invest ≠ 0 →
      (calcROI v).roi = (calcROI v).annualNet / (calcROI v).invest * 100) := by
  unfold calcROI
  constructor <;> intro h <;> simp_all

theorem calcROI_roi_guard_witness :
    (calcROI { price := 1, reno := -1, mgmt := 0, tax := 0, rent := 0,
               discount := 0, years := 1 }).roi = 0 ∧
    (calcROI { price := 100, reno := 0, mgmt := 0, tax := 0, rent := 10,
               discount := 0, years := 1 }).roi =
      (calcROI { price := 100, reno := 0, mgmt := 0, tax := 0, rent := 10,
                 discount := 0, years := 1 }).annualNet /
        (calcROI { price := 100, reno := 0, mgmt := 0, tax := 0, rent := 10,
                   discount := 0, years := 1 }).invest * 100 := by
  constructor
  · exact (calcROI_roi_guard _).1 (by norm_num [calcROI])
  · exact (calcROI_roi_guard _).2 (by norm_num [calcROI])

/-- C3: `calcROI` returns
`paybackYears = totalInvestment / annualNetIncome` when
`annualNetIncome > 0`, and the positive-infinity sentinel (`⊤`)
whenever `annualNetIncome ≤ 0`. -/
theorem calcROI_payback (v : InputSet) :
    (0 < (calcROI v).annualNet →
      (calcROI v).payback =
        (((calcROI v).invest / (calcROI v).annualNet : ℚ) : WithTop ℚ)) ∧
    ((calcROI v).annualNet ≤ 0 → (calcROI v).payback = ⊤) := by
  unfold calcROI
  constructor <;> intro h
  · simp_all
  · simp only
    rw [if_neg (by simpa using h)]

theorem calcROI_payback_witness :
    (calcROI { price := 100, reno := 0, mgmt := 0, tax := 0, rent := 10,
               discount := 0, years := 1 }).payback =
      (((calcROI { price := 100, reno := 0, mgmt := 0, tax := 0, rent := 10,
                   discount := 0, years := 1 }).invest /
        (calcROI { price := 100, reno := 0, mgmt := 0, tax := 0, rent := 10,
                   discount := 0, years := 1 }).annualNet : ℚ) : WithTop ℚ) ∧
    (calcROI { price := 100, reno := 0, mgmt := 0, tax := 0, rent := 0,
               discount := 0, years := 1 }).payback = ⊤ := by
  constructor
  · exact (calcROI_payback _).1 (by norm_num [calcROI])
  · exact (calcROI_payback _).2 (by norm_num [calcROI])

lemma expectedRow_year (a r i : ℚ) (t : ℕ) : (expectedRow a r i t).year = t := by
  cases t <;> rfl

lemma expectedRows_pv_sum (a r i : ℚ) (n : ℕ) :
    (((List.range (n + 1)).map (expectedRow a r i)).map CashFlowRow.pv).sum
      = (expectedRow a r i n).cumulative := by
  induction n with
  | zero => simp [List.range_succ, expectedRow]
  | succ n ih =>
      rw [show n + 1 + 1 = (n + 1) + 1 from rfl, List.range_succ (n + 1)]
      simp only [List.map_append, List.sum_append, ih]
      simp [expectedRow]

/-- C4: `calcNPV` discounts with the effective rate
`r = max(−0.99, discountRatePercent / 100)`; every row `t` in
`1..horizonYears` has `discountFactor = 1/(1+r)^t` and
`presentValue = netAnnual × discountFactor`, and a discount rate of
−150% yields `r = −0.99`. -/
theorem calcNPV_discounting (v : InputSet) :
    (∀ t : ℕ, 1 ≤ t → t ≤ (calcNPV v).years →
      ∃ row, (calcNPV v).rows[t]? = some row ∧
        row.factor = 1 / (1 + effRate v.discount) ^ t ∧
        row.pv = (v.rent * 12 - (v.mgmt + v.tax)) *
          (1 / (1 + effRate v.discount) ^ t)) ∧
    effRate v.discount = max (-(99/100)) (v.discount / 100) ∧
    (v.discount = -150 → effRate v.discount = -(99/100)) := by
  refine ⟨?_, rfl, ?_⟩
  · intro t h1 h2
    obtain ⟨s, rfl⟩ : ∃ s, t = s + 1 := ⟨t - 1, by omega⟩
    simp only [calcNPV_eq] at h2 ⊢
    refine ⟨expectedRow (v.rent * 12 - (v.mgmt + v.tax)) (effRate v.discount)
      (v.price + v.reno) (s + 1), ?_, rfl, rfl⟩
    rw [List.getElem?_map, List.getElem?_range (by omega)]
    rfl
  · intro h
    rw [effRate, h]
    rw [max_eq_left (by norm_num)]

theorem calcNPV_discounting_witness :
    (∃ row, (calcNPV DEFAULTS).rows[1]? = some row ∧
      row.factor = 1 / (1 + effRate DEFAULTS.discount) ^ 1 ∧
      row.pv = (DEFAULTS.rent * 12 - (DEFAULTS.mgmt + DEFAULTS.tax)) *
        (1 / (1 + effRate DEFAULTS.discount) ^ 1)) ∧
    effRate (-150) = -(99/100) := by
  constructor
  · exact (calcNPV_discounting DEFAULTS).1 1 (by norm_num)
      (by norm_num [calcNPV_eq, clampYears, DEFAULTS])
  · exact (calcNPV_discounting
      { price := 0, reno := 0, mgmt := 0, tax := 0, rent := 0,
        discount := -150, years := 1 }).2.2 rfl

/-- C5: row 0 of `calcNPV` always has `netCashFlow = −totalInvestment`,
`discountFactor = 1` and `presentValue = −totalInvestment`. -/
theorem calcNPV_row_zero (v : InputSet) :
    (calcNPV v).rows[0]? =
      some { year := 0, net := -(v.price + v.reno), factor := 1,
             pv := -(v.price + v.reno), cumulative := -(v.price + v.reno) } := by
  simp only [calcNPV_eq]
  rw [List.getElem?_map, List.getElem?_range (by omega)]
  rfl

/-- C6: with `horizonYears = max(1, floor(years))`, the row list has
exactly `horizonYears + 1` entries whose `year` fields are strictly
ascending from `0` to `horizonYears`. -/
theorem calcNPV_rows_shape (v : InputSet) :
    (calcNPV v).years = (max 1 ⌊v.years⌋).toNat ∧
    (calcNPV v).rows.length = (calcNPV v).years + 1 ∧
    (calcNPV v).rows.map CashFlowRow.year =
      List.range ((calcNPV v).years + 1) := by
  refine ⟨rfl, ?_, ?_⟩
  · simp [calcNPV_eq]
  · simp only [calcNPV_eq, List.map_map]
    refine (List.map_congr_left ?_).trans (List.map_id _)
    exact fun x _ => expectedRow_year _ _ _ x

/-- C7: each row's `cumulativePresentValue` is the sum of the
`presentValue` fields of all rows up to and including it, and
`netPresentValue` is both the last `cumulativePresentValue` and the sum
of all rows' `presentValue`. -/
theorem calcNPV_cumulative (v : InputSet) :
    (calcNPV v).rows.map CashFlowRow.cumulative =
      (List.range (calcNPV v).rows.length).map
        (fun i => (((calcNPV v).rows.take (i + 1)).map CashFlowRow.pv).sum) ∧
    (calcNPV v).npv = ((calcNPV v).rows.map CashFlowRow.pv).sum ∧
    (calcNPV v).rows.getLast?.map CashFlowRow.cumulative =
      some (calcNPV v).npv := by
  refine ⟨?_, ?_, ?_⟩
  · simp only [calcNPV_eq, List.map_map, List.length_map, List.length_range]
    refine List.map_congr_left ?_
    intro i hi
    rw [List.mem_range] at hi
    rw [← List.map_take, List.take_range, Nat.min_eq_left (by omega),
      expectedRows_pv_sum]
    rfl
  · simp only [calcNPV_eq]
    exact (expectedRows_pv_sum _ _ _ _).symm
  · simp only [calcNPV_eq, List.range_succ, List.map_append, List.map_cons,
      List.map_nil]
    rw [List.getLast?_concat]
    rfl

/-- C8 counterexample: at the documented example input (`DEFAULTS`),
the year-1 presentValue is exactly 14450, not ≈14449.02 as claimed:
14450 is 0.98 away from 14449.02, far beyond the half-cent rounding
tolerance of a value displayed with two decimals. -/
theorem example_row1_pv_not_14449 :
    (calcNPV DEFAULTS).rows[1]?.map CashFlowRow.pv = some 14450 ∧
    ¬ |(14450 : ℚ) - 1444902 / 100| ≤ 1 / 200 := by
  constructor
  · simp only [calcNPV_eq]
    rw [List.getElem?_map,
      List.getElem?_range (by norm_num [clampYears, DEFAULTS])]
    norm_num [expectedRow, effRate, DEFAULTS, max_def]
  · rw [not_le, show (14450 : ℚ) - 1444902 / 100 = 49 / 50 from by norm_num,
      abs_of_nonneg (by norm_num : (0:ℚ) ≤ 49 / 50)]
    norm_num

/-- C8 (amended): at the example input, totalInvestment = 277000,
annualNetIncome = 14739, roiPercent ≈ 5.32, paybackYears ≈ 18.79,
year-1 discountFactor = 50/51 ≈ 0.9804, year-1 presentValue = 14450
(exactly; not 14449.02), and row 0 presentValue = −277000. -/
theorem example_values :
    (calcROI DEFAULTS).invest = 277000 ∧
    (calcROI DEFAULTS).annualNet = 14739 ∧
    |(calcROI DEFAULTS).roi - 532 / 100| ≤ 1 / 200 ∧
    (calcROI DEFAULTS).payback = ((277000 / 14739 : ℚ) : WithTop ℚ) ∧
    |(277000 / 14739 : ℚ) - 1879 / 100| ≤ 1 / 200 ∧
    (calcNPV DEFAULTS).rows[1]?.map CashFlowRow.factor = some (50 / 51) ∧
    |(50 / 51 : ℚ) - 9804 / 10000| ≤ 1 / 20000 ∧
    (calcNPV DEFAULTS).rows[1]?.map CashFlowRow.pv = some 14450 ∧
    (calcNPV DEFAULTS).rows[0]?.map CashFlowRow.pv = some (-277000) := by
  refine ⟨?_, ?_, ?_, ?_, ?_, ?_, ?_, ?_, ?_⟩
  · norm_num [calcROI, DEFAULTS]
  · norm_num [calcROI, DEFAULTS]
  · rw [abs_le]
    constructor <;> norm_num [calcROI, DEFAULTS]
  · norm_num [calcROI, DEFAULTS]
  · rw [abs_le]
    constructor <;> norm_num
  · simp only [calcNPV_eq]
    rw [List.getElem?_map,
      List.getElem?_range (by norm_num [clampYears, DEFAULTS])]
    norm_num [expectedRow, effRate, DEFAULTS, max_def]
  · rw [abs_le]
    constructor <;> norm_num
  · simp only [calcNPV_eq]
    rw [List.getElem?_map,
      List.getElem?_range (by norm_num [clampYears, DEFAULTS])]
    norm_num [expectedRow, effRate, DEFAULTS, max_def]
  · simp only [calcNPV_eq]
    rw [List.getElem?_map,
      List.getElem?_range (by norm_num [clampYears, DEFAULTS])]
    norm_num [expectedRow, DEFAULTS]

/-- C9: a non-finite entry in any field falls back to that field's
documented default before the calculators run, so the calculators only
ever see the validated record. -/
theorem invalid_inputs_default (raw : RawInputs) :
    (raw.price = none → (validateAndReadAll raw).price = 260000) ∧
    (raw.reno = none → (validateAndReadAll raw).reno = 17000) ∧
    (raw.mgmt = none → (validateAndReadAll raw).mgmt = 2639) ∧
    (raw.tax = none → (validateAndReadAll raw).tax = 3022) ∧
    (raw.rent = none → (validateAndReadAll raw).rent = 1700) ∧
    (raw.discount = none → (validateAndReadAll raw).discount = 2) ∧
    (raw.years = none → (validateAndReadAll raw).years = 30) := by
  refine ⟨?_, ?_, ?_, ?_, ?_, ?_, ?_⟩ <;> intro h <;>
    norm_num [validateAndReadAll, readInputValue, DEFAULTS, h]

theorem invalid_inputs_default_witness :
    (validateAndReadAll ⟨none, none, none, none, none, none, none⟩).price = 260000 ∧
    (validateAndReadAll ⟨none, none, none, none, none, none, none⟩).reno = 17000 ∧
    (validateAndReadAll ⟨none, none, none, none, none, none, none⟩).mgmt = 2639 ∧
    (validateAndReadAll ⟨none, none, none, none, none, none, none⟩).tax = 3022 ∧
    (validateAndReadAll ⟨none, none, none, none, none, none, none⟩).rent = 1700 ∧
    (validateAndReadAll ⟨none, none, none, none, none, none, none⟩).discount = 2 ∧
    (validateAndReadAll ⟨none, none, none, none, none, none, none⟩).years = 30 :=
  ⟨(invalid_inputs_default _).1 rfl, (invalid_inputs_default _).2.1 rfl,
   (invalid_inputs_default _).2.2.1 rfl, (invalid_inputs_default _).2.2.2.1 rfl,
   (invalid_inputs_default _).2.2.2.2.1 rfl,
   (invalid_inputs_default _).2.2.2.2.2.1 rfl,
   (invalid_inputs_default _).2.2.2.2.2.2 rfl⟩

/-- C10: every finite parsed value passes through validation unchanged
— negative price, renovation, fees, taxes and rent included; only the
`years` field is transformed, to `max(1, floor(years))`; and a value
flagged by a validation message (a non-positive price) is still the
value handed on. -/
theorem finite_inputs_pass_through (raw : RawInputs) (p q m u n d y : ℚ) :
    (raw.price = some p → (validateAndReadAll raw).price = p) ∧
    (raw.reno = some q → (validateAndReadAll raw).reno = q) ∧
    (raw.mgmt = some m → (validateAndReadAll raw).mgmt = m) ∧
    (raw.tax = some u → (validateAndReadAll raw).tax = u) ∧
    (raw.rent = some n → (validateAndReadAll raw).rent = n) ∧
    (raw.discount = some d → (validateAndReadAll raw).discount = d) ∧
    (raw.years = some y →
      (validateAndReadAll raw).years = ((max 1 ⌊y⌋ : ℤ) : ℚ)) ∧
    (raw.price = some p → p ≤ 0 →
      (fieldMessages (validateAndReadAll raw)).price = "Price must be positive" ∧
      (validateAndReadAll raw).price = p) := by
  refine ⟨?_, ?_, ?_, ?_, ?_, ?_, ?_, ?_⟩ <;> intro h
  · simp [validateAndReadAll, readInputValue, h]
  · simp [validateAndReadAll, readInputValue, h]
  · simp [validateAndReadAll, readInputValue, h]
  · simp [validateAndReadAll, readInputValue, h]
  · simp [validateAndReadAll, readInputValue, h]
  · simp [validateAndReadAll, readInputValue, h]
  · simp [validateAndReadAll, readInputValue, h]
  · intro hp
    simp [validateAndReadAll, readInputValue, fieldMessages, h, hp]

theorem finite_inputs_pass_through_witness :
    (validateAndReadAll sampleRaw).price = -5 ∧
    (validateAndReadAll sampleRaw).reno = -1 ∧
    (validateAndReadAll sampleRaw).mgmt = -2 ∧
    (validateAndReadAll sampleRaw).tax = -3 ∧
    (validateAndReadAll sampleRaw).rent = -4 ∧
    (validateAndReadAll sampleRaw).discount = -160 ∧
    (validateAndReadAll sampleRaw).years = ((max 1 ⌊(5/2 : ℚ)⌋ : ℤ) : ℚ) ∧
    ((fieldMessages (validateAndReadAll sampleRaw)).price =
        "Price must be positive" ∧
      (validateAndReadAll sampleRaw).price = -5) :=
  ⟨(finite_inputs_pass_through sampleRaw (-5) (-1) (-2) (-3) (-4) (-160) (5/2)).1 rfl,
   (finite_inputs_pass_through sampleRaw (-5) (-1) (-2) (-3) (-4) (-160) (5/2)).2.1 rfl,
   (finite_inputs_pass_through sampleRaw (-5) (-1) (-2) (-3) (-4) (-160) (5/2)).2.2.1 rfl,
   (finite_inputs_pass_through sampleRaw (-5) (-1) (-2) (-3) (-4) (-160) (5/2)).2.2.2.1 rfl,
   (finite_inputs_pass_through sampleRaw (-5) (-1) (-2) (-3) (-4) (-160) (5/2)).2.2.2.2.1 rfl,
   (finite_inputs_pass_through sampleRaw (-5) (-1) (-2) (-3) (-4) (-160) (5/2)).2.2.2.2.2.1 rfl,
   (finite_inputs_pass_through sampleRaw (-5) (-1) (-2) (-3) (-4) (-160) (5/2)).2.2.2.2.2.2.1 rfl,
   (finite_inputs_pass_through sampleRaw (-5) (-1) (-2) (-3) (-4) (-160) (5/2)).2.2.2.2.2.2.2 rfl
     (by norm_num)⟩

end RealEstate
